import Mathlib

/-!
Verification of the meeting-analyzer orchestration layer.

The development embeds the two backend variants of the repository:
the Flask routes of `app.py` (local Ollama backend) and the Groq-based
functions of `model_logic.py` (cloud backend used by the Streamlit app).
Backend round trips are modelled by an explicit outcome value: either the
transport raised an exception carrying a message, or it returned text
whose `json.loads` outcome is given (the JSON parser itself is the Python
standard library, external to the repository).
-/

namespace MeetingAnalyzer

/-- JSON values as produced by Python `json.loads`: null, booleans,
numbers (modelled as integers, which covers every literal appearing in the
repository), strings, arrays and objects.  An object is an association
list of fields in insertion order, mirroring a Python `dict`. -/
inductive JsonValue where
  | null
  | boolean (b : Bool)
  | num (n : Int)
  | str (s : String)
  | arr (elems : List JsonValue)
  | obj (fields : List (String × JsonValue))

/-- Python `d.get(k)` on a dict represented as an association list.
Later bindings shadow earlier ones, matching Python dict semantics
(`json.loads` keeps the last occurrence of a duplicated key). -/
def dictGet : List (String × JsonValue) → String → Option JsonValue
  | [], _ => none
  | kv :: rest, k =>
    match dictGet rest k with
    | some v => some v
    | none => if kv.1 == k then some kv.2 else none

/-- Python `d.get(k, default)`. -/
def dictGetD (fields : List (String × JsonValue)) (k : String) (d : JsonValue) : JsonValue :=
  (dictGet fields k).getD d

/-- Python `d[k] = v`: update the binding in place when the key is present,
append it otherwise. -/
def dictSet (fields : List (String × JsonValue)) (k : String) (v : JsonValue) :
    List (String × JsonValue) :=
  if (dictGet fields k).isSome then
    fields.map (fun kv => if kv.1 == k then (k, v) else kv)
  else
    fields ++ [(k, v)]

/-- ASCII lower-casing of one character, as `str.lower` acts on the ASCII
error messages the classifier inspects. -/
def lowerChar (c : Char) : Char :=
  if 65 ≤ c.toNat ∧ c.toNat ≤ 90 then Char.ofNat (c.toNat + 32) else c

/-- Python `s.lower()` for the ASCII strings involved in error
classification. -/
def lowerStr (s : String) : String := String.mk (s.data.map lowerChar)

/-- List-of-characters prefix test. -/
def isPrefixL : List Char → List Char → Bool
  | [], _ => true
  | _ :: _, [] => false
  | a :: as, b :: bs => a == b && isPrefixL as bs

/-- Substring containment on character lists. -/
def containsSub (hay needle : List Char) : Bool :=
  match hay with
  | [] => isPrefixL needle []
  | _ :: t => isPrefixL needle hay || containsSub t needle

/-- Python `phrase in s.lower()`: case-insensitive substring test used by
the error classifiers of `model_logic.py`. -/
def containsPhrase (s phrase : String) : Bool :=
  containsSub (lowerStr s).data phrase.data

/-- Default whitespace characters stripped by Python `str.strip`:
space, tab, newline, carriage return, vertical tab, form feed. -/
def isSpaceChar (c : Char) : Bool :=
  c == ' ' || c == Char.ofNat 9 || c == Char.ofNat 10 || c == Char.ofNat 13
    || c == Char.ofNat 11 || c == Char.ofNat 12

/-- Python `s.strip()`: drop leading and trailing whitespace. -/
def pyStrip (s : String) : String :=
  String.mk (((s.data.dropWhile isSpaceChar).reverse.dropWhile isSpaceChar).reverse)

/-! ## Error classification (`model_logic.py`) -/

/-- Exceptions raised by the cloud-variant functions, one constructor per
raise site: `validation` for the `ValueError`s raised on empty input
before the backend round trip, `parse` for the `ValueError` raised in the
`json.JSONDecodeError` handler, and `auth`, `rate`, `modelErr`, `generic`
for the four branches of the substring-based `except Exception`
handlers.  Each constructor carries the exact message the code raises. -/
inductive RaisedError where
  | validation (msg : String)
  | parse (msg : String)
  | auth (msg : String)
  | rate (msg : String)
  | modelErr (msg : String)
  | generic (msg : String)

/-- Message raised by the authentication branch of both classifiers. -/
def authFailedMsg : String :=
  "API authentication failed. Please check your GROQ_API_KEY in Streamlit Secrets."

/-- Message raised by the rate-limit branch of both classifiers. -/
def rateLimitedMsg : String :=
  "Rate limit exceeded. Please wait a moment and try again."

/-- The `except Exception` handler of `analyze_meeting`: substring
inspection of `str(e).lower()` choosing between the authentication,
rate-limit, model-error and generic branches, in that order. -/
def classifyAnalyzeError (errMsg : String) : RaisedError :=
  if containsPhrase errMsg "api_key" || containsPhrase errMsg "authentication" then
    .auth authFailedMsg
  else if containsPhrase errMsg "rate limit" then
    .rate rateLimitedMsg
  else if containsPhrase errMsg "model" then
    .modelErr ("Model error: " ++ errMsg ++ ". Please contact support.")
  else
    .generic ("Analysis failed: " ++ errMsg)

/-- The `except Exception` handler of `chat_about_meeting`: same substring
inspection but with no model-error branch. -/
def classifyChatError (errMsg : String) : RaisedError :=
  if containsPhrase errMsg "api_key" || containsPhrase errMsg "authentication" then
    .auth authFailedMsg
  else if containsPhrase errMsg "rate limit" then
    .rate rateLimitedMsg
  else
    .generic ("Chat failed: " ++ errMsg)

/-- The five-category error taxonomy of the specification. -/
inductive TaxonomyCategory where
  | connectionUnavailable
  | authenticationFailed
  | rateLimited
  | parseFailure
  | validationFailure
deriving DecidableEq

/-- Which taxonomy category, if any, a raised exception belongs to.  The
model-error and generic wrappers carry no category of the taxonomy. -/
def toTaxonomy : RaisedError → Option TaxonomyCategory
  | .validation _ => some .validationFailure
  | .parse _ => some .parseFailure
  | .auth _ => some .authenticationFailed
  | .rate _ => some .rateLimited
  | .modelErr _ => none
  | .generic _ => none

/-! ## Cloud backend client (`get_groq_client`) -/

/-- The Groq client handle returned by a successful `Groq(api_key=...)`
construction. -/
structure GroqClient where
  apiKey : String

/-- Message of the `ValueError` raised by `get_groq_client` when the
environment variable is unset (quotation marks of the original message
elided; the classifier only inspects it for the known phrases). -/
def groqKeyMissingMsg : String :=
  "GROQ_API_KEY not found. For Streamlit Cloud: Add it in app settings (Secrets). For local: Set environment variable: export GROQ_API_KEY=your-key"

/-- Message of the `ImportError` raised when the Groq SDK is absent. -/
def groqSdkMissingMsg : String :=
  "Groq SDK not installed. Install with: pip install groq"

/-- The function `get_groq_client` of `model_logic.py`.  It is invoked
inside each analyze/chat call and reads `os.environ.get` at that moment:
`env` is the value of `GROQ_API_KEY` in the process environment at call
time (`none` when unset).  Python `if not api_key` also rejects the empty
string. -/
def getGroqClient (groqInstalled : Bool) (env : Option String) : Except String GroqClient :=
  if groqInstalled then
    match env with
    | none => .error groqKeyMissingMsg
    | some k => if k == "" then .error groqKeyMissingMsg else .ok { apiKey := k }
  else
    .error groqSdkMissingMsg

/-- Module import of `model_logic.py`: the top level only fixes the model
identifier `GROQ_MODEL` and the optional-dependency flags; it never reads
the API key, so import is independent of the environment. -/
def moduleInit (env : Option String) : String :=
  let _ := env
  "llama-3.1-8b-instant"

/-! ## Backend round trips -/

/-- Outcome of one backend round trip for the analyze task, as observed by
the orchestrator: either the transport raised an exception with the given
message (connection refused, missing response field, provider error, ...),
or it returned text whose `json.loads` outcome is given (`Except.error`
carries the `JSONDecodeError` message when the text is not JSON). -/
inductive BackendOutcome where
  | exn (errMsg : String)
  | reply (parsed : Except String JsonValue)

/-- Python type name of a JSON value, used to reproduce the
`AttributeError` text when `.get` is called on a non-dict. -/
def pyTypeName : JsonValue → String
  | .null => "NoneType"
  | .boolean _ => "bool"
  | .num _ => "int"
  | .str _ => "str"
  | .arr _ => "list"
  | .obj _ => "dict"

/-- Message of the `AttributeError` raised by `result.get(...)` when
`json.loads` returned a non-dict (quotation marks elided). -/
def noGetAttrMsg (j : JsonValue) : String :=
  pyTypeName j ++ " object has no attribute get"

/-! ## Cloud variant: `analyze_meeting` and `chat_about_meeting` -/

/-- The defaulting block of `analyze_meeting` (`model_logic.py`,
lines 138-145): rebuild the result dict with `result.get` defaults for
each of the five keys and attach the caller-supplied title. -/
def validateAnalyzeResult (parsedFields : List (String × JsonValue)) (meetingTitle : String) :
    List (String × JsonValue) :=
  [ ("summary", dictGetD parsedFields "summary" (.str "No summary generated")),
    ("key_points", dictGetD parsedFields "key_points" (.arr [])),
    ("decisions", dictGetD parsedFields "decisions" (.arr [])),
    ("action_items", dictGetD parsedFields "action_items" (.arr [])),
    ("confidence", dictGetD parsedFields "confidence" (.str "50%")),
    ("meeting_title", .str meetingTitle) ]

/-- The function `analyze_meeting` of `model_logic.py`.  The returned
boolean records whether the Groq completion request was issued (the
network call).  Steps, in source order: the empty-input `ValueError`
before the `try` block; `get_groq_client()` inside it (reading `env` at
this call); the completion request; `json.loads`; the `result.get`
defaulting; exceptions routed through the `json.JSONDecodeError` handler
or the substring classifier.  The Python default for `meeting_title` is
the string `Meeting Analysis`. -/
def analyzeMeeting (groqInstalled : Bool) (env : Option String)
    (backend : BackendOutcome) (meetingText : String) (meetingTitle : String) :
    Except RaisedError (List (String × JsonValue)) × Bool :=
  if pyStrip meetingText == "" then
    (.error (.validation "Meeting text cannot be empty"), false)
  else
    match getGroqClient groqInstalled env with
    | .error e => (.error (classifyAnalyzeError e), false)
    | .ok _ =>
      match backend with
      | .exn e => (.error (classifyAnalyzeError e), true)
      | .reply (.error e) =>
          (.error (.parse ("Failed to parse AI response as JSON: " ++ e)), true)
      | .reply (.ok (.obj fields)) =>
          (.ok (validateAnalyzeResult fields meetingTitle), true)
      | .reply (.ok j) =>
          (.error (classifyAnalyzeError (noGetAttrMsg j)), true)

/-- The function `chat_about_meeting` of `model_logic.py`.  The chat task
returns the raw answer text; the backend outcome is the completion text or
an exception message.  The question is validated before the notes, both
before the `try` block; the boolean records whether the completion request
was issued. -/
def chatAboutMeeting (groqInstalled : Bool) (env : Option String)
    (backend : Except String String) (question : String) (meetingNotes : String) :
    Except RaisedError String × Bool :=
  if pyStrip question == "" then
    (.error (.validation "Question cannot be empty"), false)
  else if pyStrip meetingNotes == "" then
    (.error (.validation "Meeting notes cannot be empty"), false)
  else
    match getGroqClient groqInstalled env with
    | .error e => (.error (classifyChatError e), false)
    | .ok _ =>
      match backend with
      | .error e => (.error (classifyChatError e), true)
      | .ok ans => (.ok ans, true)

/-! ## Flask variant (`app.py`) -/

/-- An HTTP response of the Flask app: status code and JSON body. -/
structure HttpResponse where
  status : Nat
  body : JsonValue

/-- Fields of the body when the body is a JSON object (empty otherwise). -/
def responseFields (r : HttpResponse) : List (String × JsonValue) :=
  match r.body with
  | .obj fs => fs
  | _ => []

/-- The HTTP request issued by `ask_local_ai` in `app.py`: a POST to the
local Ollama server with the JSON payload built in the source.  The
`requests.post` call passes no `timeout` keyword argument, so the field is
`none` (the HTTP library then waits indefinitely). -/
structure OllamaRequest where
  url : String
  modelName : String
  prompt : String
  stream : Bool
  timeoutSeconds : Option Nat

/-- The `requests.post` call of `ask_local_ai` (`app.py`, lines 21-32). -/
def askLocalAiRequest (prompt : String) : OllamaRequest :=
  { url := "http://localhost:11434/api/generate"
    modelName := "llama3"
    prompt := prompt
    stream := false
    timeoutSeconds := none }

/-- The fallback dict built in the `except` branch of the `/analyze`
route. -/
def flaskFallbackFields : List (String × JsonValue) :=
  [ ("summary", .str "Could not analyze meeting."),
    ("key_points", .arr []),
    ("decisions", .arr []),
    ("action_items", .arr []),
    ("confidence", .num 0) ]

/-- The `/analyze` route of `app.py`.  `requestBody` is the parsed JSON
request body; the route reads `meeting_text` (default empty string) and
strips it, reads `meeting_title` (default `Untitled Meeting`), returns 400
before any backend call when the stripped text is empty, and otherwise
runs the round trip: any exception inside the `try` block (transport
failure or `json.loads` failure) is replaced by the fallback dict; a
parsed JSON object gets `meeting_title` attached and is returned with
status 200.  A parsed non-object makes `result["meeting_title"] = ...`
raise outside the `try` block, which Flask turns into a 500; a non-string
`meeting_text` makes `.strip()` raise before the `try` block, likewise a
500.  The boolean records whether `ask_local_ai` was invoked. -/
def flaskAnalyze (requestBody : List (String × JsonValue)) (backend : BackendOutcome) :
    HttpResponse × Bool :=
  match dictGetD requestBody "meeting_text" (.str "") with
  | .str rawText =>
    let meetingText := pyStrip rawText
    let meetingTitle := dictGetD requestBody "meeting_title" (.str "Untitled Meeting")
    if meetingText == "" then
      ({ status := 400, body := .obj [("error", .str "No meeting text provided")] }, false)
    else
      match backend with
      | .exn _ =>
          ({ status := 200,
             body := .obj (dictSet flaskFallbackFields "meeting_title" meetingTitle) }, true)
      | .reply (.error _) =>
          ({ status := 200,
             body := .obj (dictSet flaskFallbackFields "meeting_title" meetingTitle) }, true)
      | .reply (.ok (.obj fields)) =>
          ({ status := 200,
             body := .obj (dictSet fields "meeting_title" meetingTitle) }, true)
      | .reply (.ok _) =>
          ({ status := 500, body := .null }, true)
  | _ =>
      ({ status := 500, body := .null }, false)

/-- The `/chat` route of `app.py`.  It performs no validation of
`question` or `notes`: the prompt is built and `ollama.chat` invoked
unconditionally; an exception yields the fixed apology answer with status
200.  The boolean records whether `ollama.chat` was invoked. -/
def flaskChat (question notes : String) (backend : Except String String) :
    HttpResponse × Bool :=
  let _ := question
  let _ := notes
  match backend with
  | .ok answer => ({ status := 200, body := .obj [("answer", .str answer)] }, true)
  | .error _ =>
      ({ status := 200, body := .obj [("answer", .str "Server error. Check Flask console.")] }, true)

/-! ## PDF export -/

/-- One flowable appended to the document in `export_to_pdf`:
`paragraph` for a `Paragraph` with a literal string, `paragraphJson` for a
`Paragraph` whose text is a value read from the result dict,
`bulletParagraph` for a `Paragraph(f"bullet {item}")` line, and
`confidenceParagraph` for the `Paragraph(f"Confidence Score: {confidence}")`
line; `spacer` for a `Spacer(w, h)`. -/
inductive PdfElement where
  | paragraph (text : String) (style : String)
  | paragraphJson (content : JsonValue) (style : String)
  | bulletParagraph (item : JsonValue) (style : String)
  | confidenceParagraph (confidence : JsonValue) (style : String)
  | spacer (w : Nat) (h : Nat)

/-- Python truthiness of a JSON value, as tested by `if key_points:`. -/
def truthy : JsonValue → Bool
  | .null => false
  | .boolean b => b
  | .num n => n != 0
  | .str s => s != ""
  | .arr xs => !xs.isEmpty
  | .obj fs => !fs.isEmpty

/-- Python iteration over a JSON value: lists yield their elements,
strings their one-character substrings; other values are not iterable and
`for` raises a `TypeError` (`none`). -/
def iterList : JsonValue → Option (List JsonValue)
  | .arr xs => some xs
  | .str s => some (s.data.map fun c => .str (String.mk [c]))
  | _ => none

/-- One optional bulleted section of `export_to_pdf`: heading, one bullet
paragraph per item, trailing spacer — emitted only when the value is
truthy.  `none` models the `TypeError` of iterating a non-iterable. -/
def sectionElems (heading : String) (v : JsonValue) : Option (List PdfElement) :=
  if truthy v then
    (iterList v).map fun items =>
      [PdfElement.paragraph heading "Heading2"]
        ++ items.map (fun it => PdfElement.bulletParagraph it "BodyText")
        ++ [PdfElement.spacer 1 15]
  else
    some []

/-- The function `export_to_pdf` of `model_logic.py`, modelled as the
ordered list of flowables handed to `doc.build`.  A fresh buffer is
created per call and only the argument is read, so the embedding is a pure
function of the result dict.  `none` models the run-time error of
iterating a non-iterable section value. -/
def exportToPdf (analysisResult : List (String × JsonValue)) : Option (List PdfElement) := do
  let meetingTitle := dictGetD analysisResult "meeting_title" (.str "Meeting Summary")
  let summary := dictGetD analysisResult "summary" (.str "No summary provided")
  let keyPointsElems ← sectionElems "Key Points" (dictGetD analysisResult "key_points" (.arr []))
  let decisionsElems ← sectionElems "Decisions" (dictGetD analysisResult "decisions" (.arr []))
  let actionElems ← sectionElems "Action Items" (dictGetD analysisResult "action_items" (.arr []))
  let confidence := dictGetD analysisResult "confidence" (.str "N/A")
  return [ PdfElement.paragraphJson meetingTitle "Heading1",
           PdfElement.spacer 1 20,
           PdfElement.paragraph "Summary" "Heading2",
           PdfElement.paragraphJson summary "BodyText",
           PdfElement.spacer 1 15 ]
    ++ keyPointsElems ++ decisionsElems ++ actionElems
    ++ [PdfElement.confidenceParagraph confidence "Heading2"]

/-- The `/export-pdf` route of `app.py`: title heading, spacer, and the
summary paragraph, built from the request body with the same defaults as
the source. -/
def flaskExportPdf (requestBody : List (String × JsonValue)) : List PdfElement :=
  [ PdfElement.paragraph "Meeting Summary Report" "Heading1",
    PdfElement.spacer 1 20,
    PdfElement.paragraphJson (dictGetD requestBody "summary" (.str "No summary provided")) "BodyText" ]

/-! ## Claims -/

/-- C1 counterexample: in the Flask variant a backend response that parses
as the empty JSON object is delivered to the caller with status 200 but
without any of the five required keys — only `meeting_title` is attached —
so the claim that every parsed response yields a structurally complete
result under both backend variants is false. -/
theorem c1_counterexample :
    (flaskAnalyze [("meeting_text", JsonValue.str "Team sync notes"),
        ("meeting_title", JsonValue.str "Standup")] (.reply (.ok (.obj [])))).fst.status = 200
    ∧ dictGet (responseFields (flaskAnalyze [("meeting_text", JsonValue.str "Team sync notes"),
        ("meeting_title", JsonValue.str "Standup")] (.reply (.ok (.obj [])))).fst) "summary"
      = none
    ∧ dictGet (responseFields (flaskAnalyze [("meeting_text", JsonValue.str "Team sync notes"),
        ("meeting_title", JsonValue.str "Standup")] (.reply (.ok (.obj [])))).fst) "key_points"
      = none
    ∧ dictGet (responseFields (flaskAnalyze [("meeting_text", JsonValue.str "Team sync notes"),
        ("meeting_title", JsonValue.str "Standup")] (.reply (.ok (.obj [])))).fst) "meeting_title"
      = some (JsonValue.str "Standup") :=
  ⟨rfl, rfl, rfl, rfl⟩

/-- C1 amended: only the cloud variant delivers a structurally complete
result for every parsed JSON object — all six keys are present, with the
caller-supplied title attached — but a key that is present in the model
output passes through unchanged, even when its value is null or a bare
string; the Flask variant returns a parsed object with only
`meeting_title` added. -/
theorem c1_amended (fields : List (String × JsonValue)) (text title k : String)
    (htext : ¬ pyStrip text = "") (hk : ¬ k = "") :
    ((analyzeMeeting true (some k) (.reply (.ok (.obj fields))) text title).fst
      = .ok (validateAnalyzeResult fields title))
    ∧ (dictGet (validateAnalyzeResult fields title) "summary").isSome = true
    ∧ (dictGet (validateAnalyzeResult fields title) "key_points").isSome = true
    ∧ (dictGet (validateAnalyzeResult fields title) "decisions").isSome = true
    ∧ (dictGet (validateAnalyzeResult fields title) "action_items").isSome = true
    ∧ (dictGet (validateAnalyzeResult fields title) "confidence").isSome = true
    ∧ dictGet (validateAnalyzeResult fields title) "meeting_title" = some (JsonValue.str title)
    ∧ (∀ v, dictGet fields "key_points" = some v →
        dictGet (validateAnalyzeResult fields title) "key_points" = some v) := by
  refine ⟨?_, ?_, ?_, ?_, ?_, ?_, ?_, ?_⟩
  · simp [analyzeMeeting, getGroqClient, htext, hk]
  · simp [validateAnalyzeResult, dictGet, dictGetD]
  · simp [validateAnalyzeResult, dictGet, dictGetD]
  · simp [validateAnalyzeResult, dictGet, dictGetD]
  · simp [validateAnalyzeResult, dictGet, dictGetD]
  · simp [validateAnalyzeResult, dictGet, dictGetD]
  · simp [validateAnalyzeResult, dictGet, dictGetD]
  · intro v hv
    simp [validateAnalyzeResult, dictGet, dictGetD, hv]

/-- C1 amended, witness: the cloud variant on a response whose
`key_points` is null delivers the validated result unchanged. -/
theorem c1_amended_witness :
    (analyzeMeeting true (some "gsk") (.reply (.ok (.obj [("key_points", JsonValue.null)])))
        "Notes" "Standup").fst
      = .ok (validateAnalyzeResult [("key_points", JsonValue.null)] "Standup") :=
  (c1_amended [("key_points", JsonValue.null)] "Notes" "Standup" "gsk"
    (by decide) (by decide)).1

/-- C2 counterexample: in the Flask variant an unparsable backend response
is silently replaced by the defaulted fallback result and returned with
status 200 and no error field — no ParseFailure reaches the caller — so
the claim fails for that variant. -/
theorem c2_counterexample :
    (flaskAnalyze [("meeting_text", JsonValue.str "Team sync notes")]
        (.reply (.error "Expecting value: line 1 column 1"))).fst.status = 200
    ∧ dictGet (responseFields (flaskAnalyze [("meeting_text", JsonValue.str "Team sync notes")]
        (.reply (.error "Expecting value: line 1 column 1"))).fst) "error" = none
    ∧ dictGet (responseFields (flaskAnalyze [("meeting_text", JsonValue.str "Team sync notes")]
        (.reply (.error "Expecting value: line 1 column 1"))).fst) "summary"
      = some (JsonValue.str "Could not analyze meeting.") :=
  ⟨rfl, rfl, rfl⟩

/-- C2 amended: only the cloud variant surfaces a ParseFailure-classified
error for an unparsable response; the Flask variant replaces the whole
unparsable response with the fallback result delivered with status 200. -/
theorem c2_amended (e text title k : String) (htext : ¬ pyStrip text = "") (hk : ¬ k = "") :
    ((analyzeMeeting true (some k) (.reply (.error e)) text title).fst
      = .error (.parse ("Failed to parse AI response as JSON: " ++ e)))
    ∧ toTaxonomy (RaisedError.parse ("Failed to parse AI response as JSON: " ++ e))
      = some .parseFailure
    ∧ (flaskAnalyze [("meeting_text", JsonValue.str text), ("meeting_title", JsonValue.str title)]
        (.reply (.error e))).fst.status = 200
    ∧ responseFields (flaskAnalyze [("meeting_text", JsonValue.str text),
        ("meeting_title", JsonValue.str title)] (.reply (.error e))).fst
      = flaskFallbackFields ++ [("meeting_title", JsonValue.str title)] := by
  refine ⟨?_, rfl, ?_, ?_⟩
  · simp [analyzeMeeting, getGroqClient, htext, hk]
  · simp [flaskAnalyze, dictGetD, dictGet, htext]
  · simp [flaskAnalyze, responseFields, dictGetD, dictGet, dictSet, flaskFallbackFields, htext]

/-- C2 amended, witness at a concrete unparsable response. -/
theorem c2_amended_witness :
    (analyzeMeeting true (some "gsk2") (.reply (.error "Expecting value")) "Notes"
        "Planning").fst
      = .error (.parse ("Failed to parse AI response as JSON: " ++ "Expecting value")) :=
  (c2_amended "Expecting value" "Notes" "Planning" "gsk2" (by decide) (by decide)).1

/-- C3 confirmed: an empty or whitespace-only meeting text makes both
variants fail before any backend call — the cloud variant raises the
empty-input ValueError (a ValidationFailure), the Flask route answers 400
— and in both cases the backend-invoked flag is false. -/
theorem c3_empty_input_fails_fast (groqInstalled : Bool) (env : Option String)
    (backend : BackendOutcome) (text title : String) (h : pyStrip text = "") :
    (analyzeMeeting groqInstalled env backend text title
      = (.error (.validation "Meeting text cannot be empty"), false))
    ∧ toTaxonomy (RaisedError.validation "Meeting text cannot be empty")
      = some .validationFailure
    ∧ (flaskAnalyze [("meeting_text", JsonValue.str text), ("meeting_title", JsonValue.str title)]
        backend
      = ({ status := 400, body := .obj [("error", JsonValue.str "No meeting text provided")] },
         false)) := by
  refine ⟨?_, rfl, ?_⟩
  · simp [analyzeMeeting, h]
  · simp [flaskAnalyze, dictGetD, dictGet, h]

/-- C3 witness: the whitespace-only input on concrete arguments. -/
theorem c3_witness :
    (analyzeMeeting true (some "gsk") (.reply (.ok (.obj []))) "   " "Weekly Sync").snd = false
    ∧ (flaskAnalyze [("meeting_text", JsonValue.str "   "),
        ("meeting_title", JsonValue.str "Weekly Sync")] (.reply (.ok (.obj [])))).fst.status
      = 400 := by
  have h := c3_empty_input_fails_fast true (some "gsk") (.reply (.ok (.obj []))) "   "
    "Weekly Sync" (by decide)
  exact ⟨by simp [h.1], by simp [h.2.2]⟩

/-- C4 counterexample: a required key that is present but of the wrong
shape is not substituted — `key_points` equal to the number 5 passes
through the validator unchanged instead of becoming the empty sequence. -/
theorem c4_counterexample :
    dictGet (validateAnalyzeResult [("key_points", JsonValue.num 5)] "Standup") "key_points"
      = some (JsonValue.num 5)
    ∧ ¬ dictGet (validateAnalyzeResult [("key_points", JsonValue.num 5)] "Standup") "key_points"
        = some (JsonValue.arr []) := by
  constructor
  · rfl
  · intro h
    simp [validateAnalyzeResult, dictGet, dictGetD] at h

/-- C4 amended: the cloud validator substitutes the defaults only for keys
that are absent — summary placeholder, empty sequences, the
percentage-string confidence default (there is no numeric-50 scheme, and
the Flask variant performs no per-key defaulting at all) — while a key
that is present passes through unchanged regardless of shape; the
response with only a summary yields exactly the claimed defaults. -/
theorem c4_amended (fields : List (String × JsonValue)) (title : String) :
    (dictGet fields "summary" = none →
      dictGet (validateAnalyzeResult fields title) "summary"
        = some (JsonValue.str "No summary generated"))
    ∧ (dictGet fields "key_points" = none →
      dictGet (validateAnalyzeResult fields title) "key_points" = some (JsonValue.arr []))
    ∧ (dictGet fields "decisions" = none →
      dictGet (validateAnalyzeResult fields title) "decisions" = some (JsonValue.arr []))
    ∧ (dictGet fields "action_items" = none →
      dictGet (validateAnalyzeResult fields title) "action_items" = some (JsonValue.arr []))
    ∧ (dictGet fields "confidence" = none →
      dictGet (validateAnalyzeResult fields title) "confidence" = some (JsonValue.str "50%"))
    ∧ (∀ v, dictGet fields "confidence" = some v →
      dictGet (validateAnalyzeResult fields title) "confidence" = some v)
    ∧ dictGet (validateAnalyzeResult [("summary", JsonValue.str "S")] title) "summary"
      = some (JsonValue.str "S")
    ∧ dictGet (validateAnalyzeResult [("summary", JsonValue.str "S")] title) "key_points"
      = some (JsonValue.arr [])
    ∧ dictGet (validateAnalyzeResult [("summary", JsonValue.str "S")] title) "decisions"
      = some (JsonValue.arr [])
    ∧ dictGet (validateAnalyzeResult [("summary", JsonValue.str "S")] title) "action_items"
      = some (JsonValue.arr [])
    ∧ dictGet (validateAnalyzeResult [("summary", JsonValue.str "S")] title) "confidence"
      = some (JsonValue.str "50%") := by
  refine ⟨?_, ?_, ?_, ?_, ?_, ?_, rfl, rfl, rfl, rfl, rfl⟩
  · intro h; simp [validateAnalyzeResult, dictGet, dictGetD, h]
  · intro h; simp [validateAnalyzeResult, dictGet, dictGetD, h]
  · intro h; simp [validateAnalyzeResult, dictGet, dictGetD, h]
  · intro h; simp [validateAnalyzeResult, dictGet, dictGetD, h]
  · intro h; simp [validateAnalyzeResult, dictGet, dictGetD, h]
  · intro v hv; simp [validateAnalyzeResult, dictGet, dictGetD, hv]

/-- C4 amended, witness: with only a summary present the validator
defaults `key_points` to the empty sequence. -/
theorem c4_amended_witness :
    dictGet (validateAnalyzeResult [("summary", JsonValue.str "S")] "Roadmap") "key_points"
      = some (JsonValue.arr []) :=
  (c4_amended [("summary", JsonValue.str "S")] "Roadmap").2.1 rfl

/-- C5 counterexample: the Flask `/chat` route invokes the backend even
when both the question and the notes are empty, and answers 200 with the
model's reply — no ValidationFailure is raised — so the claim fails for
that variant. -/
theorem c5_counterexample :
    (flaskChat "" "" (.ok "It was decided to ship.")).snd = true
    ∧ (flaskChat "" "" (.ok "It was decided to ship.")).fst.status = 200
    ∧ dictGet (responseFields (flaskChat "" "" (.ok "It was decided to ship.")).fst) "answer"
      = some (JsonValue.str "It was decided to ship.") :=
  ⟨rfl, rfl, rfl⟩

/-- C5 amended: only the cloud variant validates the contextual-QA inputs
— an empty or whitespace-only question or notes raises the corresponding
empty-input ValueError (a ValidationFailure) without invoking the backend,
the question being checked first — while the Flask `/chat` route performs
no validation and always invokes the backend. -/
theorem c5_amended (groqInstalled : Bool) (env : Option String)
    (backend fbackend : Except String String) (q notes : String)
    (h : pyStrip q = "" ∨ pyStrip notes = "") :
    (chatAboutMeeting groqInstalled env backend q notes).snd = false
    ∧ (∃ m, (chatAboutMeeting groqInstalled env backend q notes).fst
        = .error (.validation m)
        ∧ toTaxonomy (RaisedError.validation m) = some .validationFailure)
    ∧ (flaskChat q notes fbackend).snd = true := by
  have hflask : (flaskChat q notes fbackend).snd = true := by
    cases fbackend <;> rfl
  by_cases hq : pyStrip q = ""
  · exact ⟨by simp [chatAboutMeeting, hq], ⟨"Question cannot be empty",
      by simp [chatAboutMeeting, hq], rfl⟩, hflask⟩
  · have hn : pyStrip notes = "" := h.resolve_left hq
    exact ⟨by simp [chatAboutMeeting, hq, hn], ⟨"Meeting notes cannot be empty",
      by simp [chatAboutMeeting, hq, hn], rfl⟩, hflask⟩

/-- C5 amended, witness: an empty question with non-empty notes. -/
theorem c5_amended_witness :
    (chatAboutMeeting true (some "gsk") (.ok "hi") "" "We decided to ship Friday.").snd
      = false :=
  (c5_amended true (some "gsk") (.ok "hi") (.ok "hi") "" "We decided to ship Friday."
    (Or.inl rfl)).1

/-- Classification of the missing-key ValueError message: it contains the
phrase `api_key` (inside `groq_api_key`), so both substring classifiers
route it to the authentication branch. -/
theorem classify_key_missing_analyze :
    classifyAnalyzeError groqKeyMissingMsg = .auth authFailedMsg := by
  have : containsPhrase groqKeyMissingMsg "api_key" = true := by decide
  simp [classifyAnalyzeError, this]

/-- Classification of the missing-key ValueError message by the chat
handler: likewise the authentication branch. -/
theorem classify_key_missing_chat :
    classifyChatError groqKeyMissingMsg = .auth authFailedMsg := by
  have : containsPhrase groqKeyMissingMsg "api_key" = true := by decide
  simp [classifyChatError, this]

/-- C6 confirmed: module import reads no credential (its result is the
same whatever the environment holds); a missing or empty `GROQ_API_KEY` is
detected inside `get_groq_client`, which each call invokes afresh, and the
first analyze or chat call that needs it fails with the
AuthenticationFailed classification without issuing a backend request;
a call made after the key appears in the environment succeeds, so the key
is not cached at startup. -/
theorem c6_credential_resolution (backend : BackendOutcome) (envMissing : Option String)
    (text title k : String) (hmiss : envMissing = none ∨ envMissing = some "")
    (htext : ¬ pyStrip text = "") (hk : ¬ k = "") :
    moduleInit envMissing = moduleInit (some k)
    ∧ getGroqClient true envMissing = .error groqKeyMissingMsg
    ∧ (analyzeMeeting true envMissing backend text title
        = (.error (.auth authFailedMsg), false))
    ∧ toTaxonomy (RaisedError.auth authFailedMsg) = some .authenticationFailed
    ∧ (analyzeMeeting true (some k) (.reply (.ok (.obj []))) text title).fst
        = .ok (validateAnalyzeResult [] title)
    ∧ ((chatAboutMeeting true envMissing (.ok "answer") "What was decided?" "Some notes").fst
        = .error (.auth authFailedMsg)) := by
  have hclient : getGroqClient true envMissing = .error groqKeyMissingMsg := by
    rcases hmiss with h | h <;> simp [getGroqClient, h]
  refine ⟨rfl, hclient, ?_, rfl, ?_, ?_⟩
  · simp [analyzeMeeting, hclient, htext, classify_key_missing_analyze]
  · simp [analyzeMeeting, getGroqClient, htext, hk]
  · simp [chatAboutMeeting, hclient, classify_key_missing_chat, pyStrip, isSpaceChar]

/-- C6 witness: first call with the key unset fails with the
authentication classification; a later call with a rotated key present
succeeds. -/
theorem c6_witness :
    (analyzeMeeting true none (.exn "boom") "Notes" "Standup"
      = (.error (.auth authFailedMsg), false))
    ∧ (analyzeMeeting true (some "gsk_new") (.reply (.ok (.obj []))) "Notes" "Standup").fst
      = .ok (validateAnalyzeResult [] "Standup") := by
  have h := c6_credential_resolution (.exn "boom") none "Notes" "Standup" "gsk_new"
    (Or.inl rfl) (by decide) (by decide)
  exact ⟨h.2.2.1, h.2.2.2.2.1⟩

/-- C7 counterexample: a transport failure whose text names none of the
known phrases — for example a refused connection — is re-raised as the
generic `Analysis failed` wrapper, which belongs to no category of the
five-member taxonomy; in particular no failure is ever mapped to
ConnectionUnavailable. -/
theorem c7_counterexample :
    classifyAnalyzeError "HTTPSConnectionPool host refused"
      = .generic ("Analysis failed: " ++ "HTTPSConnectionPool host refused")
    ∧ toTaxonomy (classifyAnalyzeError "HTTPSConnectionPool host refused") = none :=
  ⟨rfl, rfl⟩

/-- C7 amended: the substring rules for the authentication phrases and for
`rate limit` hold as claimed (in that order), but the remaining failures
do not map into the five-category taxonomy: a message containing `model`
becomes the `Model error` wrapper and every other message the generic
`Analysis failed` wrapper, neither of which carries a taxonomy category;
the Flask variant surfaces no classification at all, replacing the failure
with the 200 fallback result. -/
theorem c7_amended (msg : String) :
    ((containsPhrase msg "api_key" = true ∨ containsPhrase msg "authentication" = true) →
      classifyAnalyzeError msg = .auth authFailedMsg
      ∧ toTaxonomy (classifyAnalyzeError msg) = some .authenticationFailed)
    ∧ (containsPhrase msg "api_key" = false → containsPhrase msg "authentication" = false →
       containsPhrase msg "rate limit" = true →
      classifyAnalyzeError msg = .rate rateLimitedMsg
      ∧ toTaxonomy (classifyAnalyzeError msg) = some .rateLimited)
    ∧ (containsPhrase msg "api_key" = false → containsPhrase msg "authentication" = false →
       containsPhrase msg "rate limit" = false → containsPhrase msg "model" = true →
      classifyAnalyzeError msg
        = .modelErr ("Model error: " ++ msg ++ ". Please contact support.")
      ∧ toTaxonomy (classifyAnalyzeError msg) = none)
    ∧ (containsPhrase msg "api_key" = false → containsPhrase msg "authentication" = false →
       containsPhrase msg "rate limit" = false → containsPhrase msg "model" = false →
      classifyAnalyzeError msg = .generic ("Analysis failed: " ++ msg)
      ∧ toTaxonomy (classifyAnalyzeError msg) = none)
    ∧ (∀ text title, ¬ pyStrip text = "" →
      (flaskAnalyze [("meeting_text", JsonValue.str text),
          ("meeting_title", JsonValue.str title)] (.exn msg)).fst.status = 200
      ∧ dictGet (responseFields (flaskAnalyze [("meeting_text", JsonValue.str text),
          ("meeting_title", JsonValue.str title)] (.exn msg)).fst) "error" = none) := by
  refine ⟨?_, ?_, ?_, ?_, ?_⟩
  · rintro (h | h) <;> simp [classifyAnalyzeError, toTaxonomy, h]
  · intro h1 h2 h3
    simp [classifyAnalyzeError, toTaxonomy, h1, h2, h3]
  · intro h1 h2 h3 h4
    simp [classifyAnalyzeError, toTaxonomy, h1, h2, h3, h4]
  · intro h1 h2 h3 h4
    simp [classifyAnalyzeError, toTaxonomy, h1, h2, h3, h4]
  · intro text title htext
    constructor
    · simp [flaskAnalyze, dictGetD, dictGet, htext]
    · simp [flaskAnalyze, responseFields, dictGetD, dictGet, dictSet, flaskFallbackFields, htext]

/-- C7 amended, witness: a rate-limit message routed to the rate-limit
branch. -/
theorem c7_amended_witness :
    classifyAnalyzeError "Request rate limit reached" = .rate rateLimitedMsg :=
  ((c7_amended "Request rate limit reached").2.1 (by decide) (by decide) (by decide)).1

/-- C8 counterexample: the Ollama generate call of `ask_local_ai` is
issued with no timeout at all, not with a 120-second generation timeout. -/
theorem c8_counterexample :
    ¬ (askLocalAiRequest "Summarize the meeting").timeoutSeconds = some 120 := by
  simp [askLocalAiRequest]

/-- C8 amended: every Local Backend generate call goes to the local Ollama
endpoint with model `llama3`, streaming disabled and the prompt passed
through, but with no timeout set — the HTTP library default of waiting
indefinitely applies, and no 120-second generation timeout exists. -/
theorem c8_amended (p : String) :
    (askLocalAiRequest p).timeoutSeconds = none
    ∧ (askLocalAiRequest p).url = "http://localhost:11434/api/generate"
    ∧ (askLocalAiRequest p).modelName = "llama3"
    ∧ (askLocalAiRequest p).stream = false
    ∧ (askLocalAiRequest p).prompt = p :=
  ⟨rfl, rfl, rfl, rfl, rfl⟩

/-- C9 confirmed: both export renderers are pure functions of the result
dict — a fresh buffer is created per call and nothing else is read — so
rendering the same AnalysisResult twice yields identical documents: same
title, same ordered bullet lists, same confidence line.  The third
conjunct shows the rendered element order on a validated result with two
key points. -/
theorem c9_export_idempotent (analysisResult : List (String × JsonValue)) :
    exportToPdf analysisResult = exportToPdf analysisResult
    ∧ flaskExportPdf analysisResult = flaskExportPdf analysisResult
    ∧ exportToPdf (validateAnalyzeResult
        [("summary", JsonValue.str "S"),
         ("key_points", JsonValue.arr [JsonValue.str "A", JsonValue.str "B"])] "Standup")
      = some
        [ PdfElement.paragraphJson (JsonValue.str "Standup") "Heading1",
          PdfElement.spacer 1 20,
          PdfElement.paragraph "Summary" "Heading2",
          PdfElement.paragraphJson (JsonValue.str "S") "BodyText",
          PdfElement.spacer 1 15,
          PdfElement.paragraph "Key Points" "Heading2",
          PdfElement.bulletParagraph (JsonValue.str "A") "BodyText",
          PdfElement.bulletParagraph (JsonValue.str "B") "BodyText",
          PdfElement.spacer 1 15,
          PdfElement.confidenceParagraph (JsonValue.str "50%") "Heading2" ] :=
  ⟨rfl, rfl, rfl⟩

/-- C10 confirmed: in the Flask variant every failure of the round trip
after input validation — a backend exception (unreachable server, missing
response field) or an unparsable model output — yields status 200 with the
complete fallback result (`Could not analyze meeting.`, three empty
sequences, confidence 0) and the caller-supplied title; no error status or
classification reaches the caller. -/
theorem c10_flask_failure_fallback (m e text title : String) (h : ¬ pyStrip text = "") :
    (flaskAnalyze [("meeting_text", JsonValue.str text), ("meeting_title", JsonValue.str title)]
        (.exn m)
      = ({ status := 200,
           body := .obj (flaskFallbackFields ++ [("meeting_title", JsonValue.str title)]) },
         true))
    ∧ (flaskAnalyze [("meeting_text", JsonValue.str text), ("meeting_title", JsonValue.str title)]
        (.reply (.error e))
      = ({ status := 200,
           body := .obj (flaskFallbackFields ++ [("meeting_title", JsonValue.str title)]) },
         true))
    ∧ dictGet (flaskFallbackFields ++ [("meeting_title", JsonValue.str title)]) "error" = none
    ∧ dictGet (flaskFallbackFields ++ [("meeting_title", JsonValue.str title)]) "summary"
      = some (JsonValue.str "Could not analyze meeting.")
    ∧ dictGet (flaskFallbackFields ++ [("meeting_title", JsonValue.str title)]) "key_points"
      = some (JsonValue.arr [])
    ∧ dictGet (flaskFallbackFields ++ [("meeting_title", JsonValue.str title)]) "decisions"
      = some (JsonValue.arr [])
    ∧ dictGet (flaskFallbackFields ++ [("meeting_title", JsonValue.str title)]) "action_items"
      = some (JsonValue.arr [])
    ∧ dictGet (flaskFallbackFields ++ [("meeting_title", JsonValue.str title)]) "confidence"
      = some (JsonValue.num 0)
    ∧ dictGet (flaskFallbackFields ++ [("meeting_title", JsonValue.str title)]) "meeting_title"
      = some (JsonValue.str title) := by
  refine ⟨?_, ?_, ?_, ?_, ?_, ?_, ?_, ?_, ?_⟩ <;>
    simp [flaskAnalyze, dictGetD, dictGet, dictSet, flaskFallbackFields, h]

/-- C10 witness at a concrete refused connection and a concrete
unparsable reply. -/
theorem c10_witness :
    (flaskAnalyze [("meeting_text", JsonValue.str "Notes"),
        ("meeting_title", JsonValue.str "Sprint")] (.exn "Connection refused")).fst.status = 200
    ∧ dictGet (flaskFallbackFields ++ [("meeting_title", JsonValue.str "Sprint")]) "summary"
      = some (JsonValue.str "Could not analyze meeting.") := by
  have h := c10_flask_failure_fallback "Connection refused" "Expecting value" "Notes" "Sprint"
    (by decide)
  exact ⟨by simp [h.1], h.2.2.2.1⟩

end MeetingAnalyzer
